import Mathlib

/-!
Verification development for the JupyterMC XBlock
(src/jupytermcxblock/xblock.py).

The file shallowly embeds the module: the configuration fields become a
structure, the overridden properties become pure functions of that
structure, and the `lti_launch_handler` request handler becomes a function
from the host-platform context it reads to an outcome (an HTTP response or
an exception escaping the handler).  The pieces of the Python standard
library the module uses (`os.path.basename`, `urllib.parse.urlparse` path
extraction, `urllib.parse.urlencode` / `quote_plus`, `str.strip`, dict
assignment) are modelled byte- and character-faithfully below.
-/

namespace JupyterMC

/-! ## Models of the Python library functions used by the module -/

/-- UTF-8 encoding of one character as its list of byte values, as produced
by Python `str.encode("utf-8")` for a single code point. -/
def utf8Bytes (c : Char) : List Nat :=
  let n := c.toNat
  if n < 128 then [n]
  else if n < 2048 then [192 + n / 64, 128 + n % 64]
  else if n < 65536 then [224 + n / 4096, 128 + n / 64 % 64, 128 + n % 64]
  else [240 + n / 262144, 128 + n / 4096 % 64, 128 + n / 64 % 64, 128 + n % 64]

/-- Uppercase hexadecimal digit for a value below 16, as used by
`urllib.parse.quote`. -/
def hexDigit (n : Nat) : Char :=
  if n < 10 then Char.ofNat (48 + n) else Char.ofNat (55 + n)

/-- Bytes left unescaped by `urllib.parse.quote_plus` with its default
`safe` argument: ASCII letters, digits, underscore, period, hyphen, tilde. -/
def isSafeByte (n : Nat) : Bool :=
  (65 ≤ n && n ≤ 90) || (97 ≤ n && n ≤ 122) || (48 ≤ n && n ≤ 57) ||
  n == 95 || n == 46 || n == 45 || n == 126

/-- Encoding of one byte by `urllib.parse.quote_plus`: safe bytes are kept,
the space byte becomes a plus sign, every other byte is percent-escaped
with uppercase hexadecimal digits. -/
def quoteByte (n : Nat) : List Char :=
  if isSafeByte n then [Char.ofNat n]
  else if n == 32 then ['+']
  else ['%', hexDigit (n / 16), hexDigit (n % 16)]

/-- Model of `urllib.parse.quote_plus` with default arguments: the string
is encoded to UTF-8 and each byte quoted by `quoteByte`. -/
def quotePlus (s : String) : String :=
  ⟨((s.data.map utf8Bytes).flatten.map quoteByte).flatten⟩

/-- Model of `urllib.parse.urlencode` with default arguments on an
insertion-ordered mapping: each key and value is quoted with `quotePlus`,
joined by an equals sign, and the pairs are joined by ampersands. -/
def urlencode (params : List (String × String)) : String :=
  String.intercalate "&" (params.map (fun p => quotePlus p.1 ++ "=" ++ quotePlus p.2))

/-- Model of `os.path.basename` on POSIX paths: the part of the string
after its last slash. -/
def osPathBasename (s : String) : String :=
  ⟨(s.data.reverse.takeWhile (· ≠ '/')).reverse⟩

/-- Model of Python `str.strip` called with a one-character argument:
remove every leading and trailing occurrence of that character. -/
def stripChar (c : Char) (l : List Char) : List Char :=
  ((l.dropWhile (· = c)).reverse.dropWhile (· = c)).reverse

/-- Characters allowed after the first character of a URL scheme by
`urllib.parse` (`scheme_chars`). -/
def isSchemeChar (c : Char) : Bool :=
  c.isAlpha || c.isDigit || c == '+' || c == '-' || c == '.'

/-- The scheme-stripping step of `urllib.parse.urlsplit`: when the text
before the first colon is a well-formed scheme (a letter followed by
scheme characters), everything up to and including the colon is removed. -/
def removeScheme (l : List Char) : List Char :=
  match l.dropWhile (· ≠ ':') with
  | [] => l
  | _ :: rest =>
    match l.takeWhile (· ≠ ':') with
    | [] => l
    | c :: cs => if c.isAlpha && cs.all isSchemeChar then rest else l

/-- Model of the `path` component returned by `urllib.parse.urlparse`:
tab, carriage-return and newline bytes are removed, a leading scheme is
stripped, a `//`-introduced network location is skipped up to the next
slash, question mark or hash, and the fragment and query parts are cut
off at the first hash and question mark. -/
def urlsplitPath (s : String) : List Char :=
  let l0 := s.data.filter (fun c => c != '\t' && c != '\r' && c != '\n')
  let l1 := removeScheme l0
  let l2 :=
    if l1.take 2 = ['/', '/'] then
      (l1.drop 2).dropWhile (fun c => c != '/' && c != '?' && c != '#')
    else l1
  (l2.takeWhile (· ≠ '#')).takeWhile (· ≠ '?')

/-- The part of a string strictly before the first occurrence of a
character (the whole string when the character is absent). -/
def beforeFirst (c : Char) (s : String) : String :=
  ⟨s.data.takeWhile (· ≠ c)⟩

/-- The part of a string strictly after the first occurrence of a
character (empty when the character is absent). -/
def afterFirst (c : Char) (s : String) : String :=
  ⟨(s.data.dropWhile (· ≠ c)).drop 1⟩

/-- Model of Python dict assignment `d[k] = v` on an insertion-ordered
association list: an existing binding of the key is updated in place,
otherwise the binding is appended at the end. -/
def setKey : List (String × String) → String → String → List (String × String)
  | [], k, v => [(k, v)]
  | p :: rest, k, v => if p.1 == k then (k, v) :: rest else p :: setKey rest k v

/-- Substring containment: `sub` occurs contiguously inside `s`. -/
def ContainsSubstring (s sub : String) : Prop :=
  ∃ a b, s = a ++ sub ++ b

/-! ## The module-level role map (xblock.py lines 14 to 18) -/

/-- The module-level `LTI_1P1_ROLE_MAP` dictionary. -/
def LTI_1P1_ROLE_MAP : List (String × String) :=
  [("student", "Student,Learner"), ("staff", "Administrator"), ("instructor", "Instructor")]

/-- Model of Python `dict.get(key, default)` on an association list. -/
def dictGet (m : List (String × String)) (k dflt : String) : String :=
  match m.lookup k with
  | some v => v
  | none => dflt

/-- The role conversion at xblock.py line 186:
`LTI_1P1_ROLE_MAP.get(role, "Student,Learner")`. -/
def lti_1p1_role (r : String) : String :=
  dictGet LTI_1P1_ROLE_MAP r "Student,Learner"

/-! ## The JupyterMCXBlock configuration and overridden properties -/

/-- The configuration fields of `JupyterMCXBlock`, together with the values
the inherited `LtiConsumerXBlock` base class supplies where the subclass
defers to `super()`.  Field defaults mirror the defaults declared in the
source; the two `base_` fields stand for the base-class property results,
with arbitrary representative defaults. -/
structure JupyterMCXBlock where
  display_name : String := "JupyterHub"
  urlbasepath : String := "lab/tree"
  nb_git_repo : String := "https://github.com/calculquebec/jupytermc-xblock.git"
  nb_git_branch : String := "main"
  nb_git_file : String := "static/notebooks/hello.ipynb"
  lti_id : String := "jupyterhub"
  hub_url : String := "https://hub.myopenedx.com"
  base_launch_target : String := "iframe"
  base_custom_parameters : List (String × String) := []

/-- The `launch_url` property (lines 109 to 112). -/
def launch_url (x : JupyterMCXBlock) : String :=
  x.hub_url ++ "/hub/lti/launch"

/-- The interface values that force the launch target to a new window
(the list literal at line 117). -/
def new_window_interfaces : List String :=
  ["rstudio", "openrefine", "Desktop", "code-server"]

/-- The `launch_target` property (lines 114 to 120). -/
def launch_target (x : JupyterMCXBlock) : String :=
  if x.urlbasepath ∈ new_window_interfaces then "new_window"
  else x.base_launch_target

/-- The `lti_version` property (lines 122 to 125). -/
def lti_version (_x : JupyterMCXBlock) : String :=
  "lti_1p1"

/-- The `hub_url_base_path` property (lines 127 to 130). -/
def hub_url_base_path (x : JupyterMCXBlock) : String :=
  ⟨stripChar '/' (urlsplitPath x.hub_url)⟩

/-- The interface values for which no specific document can be opened
(the list literal at line 145). -/
def no_document_interfaces : List String :=
  ["terminals/1", "rstudio", "openrefine", "Desktop", "code-server"]

/-- The `next_query_params` dictionary built inside
`prefixed_custom_parameters` (lines 138 to 146), including the conditional
reassignment of `urlpath`. -/
def next_query_params (x : JupyterMCXBlock) : List (String × String) :=
  let base : List (String × String) :=
    [("repo", x.nb_git_repo), ("branch", x.nb_git_branch),
     ("urlpath", x.urlbasepath ++ "/" ++ osPathBasename x.nb_git_repo ++ "/" ++ x.nb_git_file)]
  if x.urlbasepath ∈ no_document_interfaces then setKey base "urlpath" x.urlbasepath
  else base

/-- The redirect urlpath the composed query string carries: just the
interface for the no-document interfaces, otherwise
interface, repository basename and file path joined by slashes. -/
def redirect_urlpath (x : JupyterMCXBlock) : String :=
  if x.urlbasepath ∈ no_document_interfaces then x.urlbasepath
  else x.urlbasepath ++ "/" ++ osPathBasename x.nb_git_repo ++ "/" ++ x.nb_git_file

/-- The `next_url` value built at line 154. -/
def next_url (x : JupyterMCXBlock) : String :=
  hub_url_base_path x ++ "/hub/user-redirect/git-pull?" ++ urlencode (next_query_params x)

/-- The `prefixed_custom_parameters` property (lines 132 to 157): the
base-class custom parameters with the `next` key overridden. -/
def prefixed_custom_parameters (x : JupyterMCXBlock) : List (String × String) :=
  setKey x.base_custom_parameters "next" (next_url x)

/-! ## The launch request handler (lines 159 to 251) -/

/-- The dictionary returned by `extract_real_user_data`: the two entries the
handler reads.  `Option` models a possibly missing / `None` value. -/
structure RealUserData where
  user_username : Option String
  user_language : Option String
deriving DecidableEq

/-- Truthiness of an optional string under Python `bool()`: `None` and the
empty string are falsy. -/
def truthy : Option String → Bool
  | none => false
  | some s => s != ""

/-- A registered LTI parameter processor: its `lti_xblock_default_params`
attribute and the outcome of calling it.  `Except.error` models the call
raising (carrying the exception class name); the inner `Option` models the
call returning `None`, for which the handler substitutes an empty dict. -/
structure ParamProcessor where
  lti_xblock_default_params : List (String × String)
  call : Except String (Option (List (String × String)))

/-- The state the handler accumulates on the delegate `lti_consumer`
launch-request builder through `set_user_data`, `set_context_data`,
`set_outcome_service_url`, `set_launch_presentation_locale`,
`set_custom_parameters` and `set_extra_claims`. -/
structure LtiConsumerState where
  user_id : Option String := none
  user_role : Option String := none
  result_sourcedid : Option String := none
  person_sourcedid : Option String := none
  person_contact_email_primary : Option String := none
  person_name_full : Option String := none
  context_id : Option String := none
  context_title : Option String := none
  context_org : Option String := none
  outcome_service_url : Option String := none
  launch_presentation_locale : Option String := none
  custom_parameters : List (String × String) := []
  extra_claims : List (String × String) := []

/-- The host-platform context `lti_launch_handler` reads, with the
base-class services it calls kept abstract: identity extraction may raise
the declared LTI error kind (`Except.error` carries its message), and
`generate_launch_request` is an arbitrary function of the accumulated
consumer state and the resource link id. -/
structure LaunchEnv where
  real_user_data : Except String RealUserData
  lti_1p1_user_id : String := "user-1"
  role : String := "student"
  lis_result_sourcedid : String := "sourcedid-1"
  context_id : String := "context-1"
  course_display_name : String := "Course"
  course_display_org : String := "Org"
  has_score : Bool := false
  outcome_service_url : String := "https://lms.example/outcome"
  parameter_processors : List ParamProcessor := []
  resource_link_id : String := "resource-link-1"
  generate_launch_request : LtiConsumerState → String → List (String × String) :=
    fun _ _ => []

/-- A webob `Response`; the status defaults to 200 as in webob. -/
structure Response where
  body : String
  status : Nat := 200
  content_type : String
deriving DecidableEq

/-- Outcome of invoking an XBlock handler: either a webob response, or an
exception escaping the handler (identified by its Python class name). -/
inductive HandlerOutcome
  | response (r : Response)
  | uncaught (excName : String)
deriving DecidableEq

/-- Modelled from the spec: the template file
`templates/html/lti_launch_error.html` is not under src.  Spec sections 4.2,
7 and 8 say the HTTP 400 page is rendered from the template with the error
message present in the response body. -/
def render_lti_launch_error (error_msg : String) : String :=
  "<html><body>" ++ error_msg ++ "</body></html>"

/-- Serialization of the launch parameters embedded in the auto-submit
form. -/
def serialize_params (ps : List (String × String)) : String :=
  String.intercalate "&" (ps.map (fun p => p.1 ++ "=" ++ p.2))

/-- Modelled from the spec: the template file
`templates/html/lti_launch.html` is not under src.  Spec sections 4.2 and 8
say the HTTP 200 page is an HTML auto-submitting form embedding the
serialized signed launch parameters. -/
def render_lti_launch (lti_parameters : List (String × String)) : String :=
  "<html><form>" ++ serialize_params lti_parameters ++ "</form></html>"

/-- The parameter-processor loop of `lti_launch_handler` (lines 227 to
235).  The `except` branch evaluates `log.exception(...)`, but the module
defines no name `log` (only `logger`), so the branch itself raises
`NameError`, which escapes the loop and the handler. -/
def runProcessors : LtiConsumerState → List ParamProcessor → Except String LtiConsumerState
  | st, [] => Except.ok st
  | st, p :: ps =>
    let st1 := { st with extra_claims := st.extra_claims ++ p.lti_xblock_default_params }
    match p.call with
    | Except.error _ => Except.error "NameError"
    | Except.ok v =>
      runProcessors { st1 with extra_claims := st1.extra_claims ++ v.getD [] } ps

/-- The consumer state built by the successful-identity part of
`lti_launch_handler` before the processor loop (lines 196 to 225): the
`set_user_data`, `set_context_data`, conditional `set_outcome_service_url`
and `set_launch_presentation_locale`, and `set_custom_parameters` calls. -/
def initial_consumer_state (x : JupyterMCXBlock) (env : LaunchEnv) (rud : RealUserData) :
    LtiConsumerState :=
  let role := lti_1p1_role env.role
  let username : Option String :=
    if truthy rud.user_username then rud.user_username else none
  let st : LtiConsumerState :=
    { user_id := some env.lti_1p1_user_id
      user_role := some role
      result_sourcedid := some env.lis_result_sourcedid
      person_sourcedid := username
      person_contact_email_primary := none
      person_name_full := none }
  let st :=
    { st with
      context_id := some env.context_id
      context_title := some env.course_display_name
      context_org := some env.course_display_org }
  let st :=
    if env.has_score then { st with outcome_service_url := some env.outcome_service_url }
    else st
  let st :=
    if truthy rud.user_language then
      { st with launch_presentation_locale := rud.user_language }
    else st
  { st with custom_parameters := prefixed_custom_parameters x }

/-- Shallow embedding of `lti_launch_handler` (lines 159 to 251). -/
def lti_launch_handler (x : JupyterMCXBlock) (env : LaunchEnv) : HandlerOutcome :=
  match env.real_user_data with
  | Except.error err =>
    HandlerOutcome.response
      { body := render_lti_launch_error err, status := 400, content_type := "text/html" }
  | Except.ok rud =>
    match runProcessors (initial_consumer_state x env rud) env.parameter_processors with
    | Except.error excName => HandlerOutcome.uncaught excName
    | Except.ok st2 =>
      let lti_parameters := env.generate_launch_request st2 env.resource_link_id
      HandlerOutcome.response
        { body := render_lti_launch lti_parameters, content_type := "text/html" }

/-! ## The interface-selector options list (lines 37 to 53) -/

/-- Tokens of a Python list display: element entries and comma
separators. -/
inductive PyListToken
  | entry (display_name value : String)
  | comma
deriving DecidableEq

/-- The token sequence of the `values` list of the `urlbasepath` field
(lines 40 to 48): a comma token stands wherever the source has a
separating comma.  The source has no comma after the Terminal, Desktop and
OpenRefine entries. -/
def urlbasepath_values_tokens : List PyListToken :=
  [PyListToken.entry "Jupyter Notebook" "tree", PyListToken.comma,
   PyListToken.entry "JupyterLab" "lab/tree", PyListToken.comma,
   PyListToken.entry "RStudio" "rstudio", PyListToken.comma,
   PyListToken.entry "Terminal" "terminals/1",
   PyListToken.entry "Desktop" "Desktop",
   PyListToken.entry "OpenRefine" "openrefine",
   PyListToken.entry "VS Code" "code-server"]

/-- Whether a token is an element entry. -/
def isEntry : PyListToken → Bool
  | PyListToken.entry _ _ => true
  | PyListToken.comma => false

/-- Whether a token sequence is a syntactically valid interior of a Python
list display: entries separated by single commas, optionally ending with a
trailing comma. -/
def wellFormedTokens : List PyListToken → Bool
  | [] => true
  | [PyListToken.entry _ _] => true
  | PyListToken.entry _ _ :: PyListToken.comma :: rest => wellFormedTokens rest
  | _ => false

/-! ## Helper lemmas -/

/-- Looking up the assigned key after a dict assignment yields the new
value. -/
theorem lookup_setKey_self : ∀ (m : List (String × String)) (k v : String),
    (setKey m k v).lookup k = some v
  | [], k, v => by simp [setKey, List.lookup]
  | (a, b) :: rest, k, v => by
    by_cases h : a = k
    · subst h
      simp [setKey, List.lookup]
    · have hb : (a == k) = false := by simp [h]
      have hb2 : (k == a) = false := by
        simp only [beq_eq_false_iff_ne]
        exact fun e => h e.symm
      simp [setKey, hb, List.lookup, hb2, lookup_setKey_self rest k v]

/-- Looking up any other key after a dict assignment is unchanged. -/
theorem lookup_setKey_other : ∀ (m : List (String × String)) (k v k2 : String),
    k2 ≠ k → (setKey m k v).lookup k2 = m.lookup k2
  | [], k, v, k2, h => by
    have hb : (k2 == k) = false := by simp [h]
    simp [setKey, List.lookup, hb]
  | (a, b) :: rest, k, v, k2, h => by
    by_cases ha : a = k
    · subst ha
      have hb : (k2 == a) = false := by simp [h]
      simp [setKey, List.lookup, hb]
    · have hb : (a == k) = false := by simp [ha]
      by_cases h2 : k2 = a
      · subst h2
        simp [setKey, hb, List.lookup]
      · have hb2 : (k2 == a) = false := by simp [h2]
        simp [setKey, hb, List.lookup, hb2, lookup_setKey_other rest k v k2 h]

/-- The query parameters always bind exactly `repo`, `branch` and
`urlpath`, the last to the derived redirect urlpath. -/
theorem next_query_params_eq (x : JupyterMCXBlock) :
    next_query_params x =
      [("repo", x.nb_git_repo), ("branch", x.nb_git_branch),
       ("urlpath", redirect_urlpath x)] := by
  unfold next_query_params redirect_urlpath
  by_cases h : x.urlbasepath ∈ no_document_interfaces <;>
    simp [h, setKey]

/-- Dropping a satisfied-by-all block then a failing head leaves the tail
intact. -/
theorem dropWhile_append_stop {p : Char → Bool} :
    ∀ (l₁ : List Char) (a : Char) (l₂ : List Char),
      (∀ x ∈ l₁, p x = true) → p a = false →
      (l₁ ++ a :: l₂).dropWhile p = a :: l₂
  | [], a, l₂, _, h₂ => by simp [List.dropWhile_cons, h₂]
  | b :: bs, a, l₂, h₁, h₂ => by
    have hb : p b = true := h₁ b (List.mem_cons_self b bs)
    simp only [List.cons_append, List.dropWhile_cons, hb, if_true]
    exact dropWhile_append_stop bs a l₂ (fun x hx => h₁ x (List.mem_cons_of_mem b hx)) h₂

/-- Taking while a predicate holds of a block stops exactly at a failing
head appended after it. -/
theorem takeWhile_append_stop {p : Char → Bool} (l₁ : List Char) (a : Char) (l₂ : List Char)
    (h₁ : ∀ x ∈ l₁, p x = true) (h₂ : p a = false) :
    (l₁ ++ a :: l₂).takeWhile p = l₁ := by
  rw [List.takeWhile_append_of_pos h₁]
  simp [List.takeWhile_cons, h₂]

/-- The path component extracted from any URL contains no question mark. -/
theorem not_mem_urlsplitPath (s : String) : '?' ∉ urlsplitPath s := by
  intro h
  have := List.mem_takeWhile_imp h
  simp at this

/-- Stripping edge characters introduces no new characters. -/
theorem mem_stripChar {c x : Char} {l : List Char} (h : x ∈ stripChar c l) : x ∈ l := by
  unfold stripChar at h
  rw [List.mem_reverse] at h
  have h2 := (List.dropWhile_sublist (fun ch => decide (ch = c))).subset h
  rw [List.mem_reverse] at h2
  exact (List.dropWhile_sublist (fun ch => decide (ch = c))).subset h2

/-- The hub base path contains no question mark. -/
theorem not_mem_hub_url_base_path (x : JupyterMCXBlock) :
    '?' ∉ (hub_url_base_path x).data := by
  intro h
  exact not_mem_urlsplitPath x.hub_url (mem_stripChar h)

/-- When every registered processor call succeeds, the processor loop
succeeds. -/
theorem runProcessors_ok : ∀ (st : LtiConsumerState) (ps : List ParamProcessor),
    (∀ p ∈ ps, ∃ v, p.call = Except.ok v) →
    ∃ st2, runProcessors st ps = Except.ok st2
  | st, [], _ => ⟨st, rfl⟩
  | st, p :: ps, h => by
    obtain ⟨v, hv⟩ := h p (List.mem_cons_self p ps)
    unfold runProcessors
    rw [hv]
    exact runProcessors_ok _ ps (fun q hq => h q (List.mem_cons_of_mem p hq))

/-! ## Claim theorems -/

/-- C8: for every configuration of the fields, the reported LTI protocol
version is the fixed legacy value `lti_1p1`, independent of all field
values and of the base-class selection. -/
theorem C8_lti_version_constant (x : JupyterMCXBlock) : lti_version x = "lti_1p1" := rfl

/-- C4: for every platform role string, the LTI 1.1 role sent in the
launch is `Student,Learner` for `student`, `Administrator` for `staff`,
`Instructor` for `instructor`, and `Student,Learner` for any other
value. -/
theorem C4_role_mapping (r : String) :
    lti_1p1_role r =
      if r = "student" then "Student,Learner"
      else if r = "staff" then "Administrator"
      else if r = "instructor" then "Instructor"
      else "Student,Learner" := by
  unfold lti_1p1_role dictGet LTI_1P1_ROLE_MAP
  by_cases h1 : r = "student"
  · subst h1; decide
  · by_cases h2 : r = "staff"
    · subst h2; decide
    · by_cases h3 : r = "instructor"
      · subst h3; decide
      · have b1 : (r == "student") = false := by simp [h1]
        have b2 : (r == "staff") = false := by simp [h2]
        have b3 : (r == "instructor") = false := by simp [h3]
        simp [List.lookup, b1, b2, b3, h1, h2, h3]

/-- C7: each of the four window-forcing interface values makes
`launch_target` equal `new_window`; every other interface value defers to
the inherited base-class launch target. -/
theorem C7_launch_target (x : JupyterMCXBlock) :
    (x.urlbasepath = "rstudio" ∨ x.urlbasepath = "openrefine" ∨
     x.urlbasepath = "Desktop" ∨ x.urlbasepath = "code-server" →
      launch_target x = "new_window") ∧
    (x.urlbasepath ≠ "rstudio" → x.urlbasepath ≠ "openrefine" →
     x.urlbasepath ≠ "Desktop" → x.urlbasepath ≠ "code-server" →
      launch_target x = x.base_launch_target) := by
  unfold launch_target new_window_interfaces
  constructor
  · intro h
    rw [if_pos]
    rcases h with h | h | h | h <;> simp [h]
  · intro h1 h2 h3 h4
    rw [if_neg]
    simp [h1, h2, h3, h4]

/-- C7 witness: the RStudio interface forces a new window, while the
default JupyterLab interface defers to the inherited launch target. -/
theorem C7_launch_target_witness :
    launch_target { urlbasepath := "rstudio" } = "new_window" ∧
    launch_target {} = ({} : JupyterMCXBlock).base_launch_target := by
  constructor
  · exact (C7_launch_target { urlbasepath := "rstudio" }).1 (Or.inl rfl)
  · exact (C7_launch_target {}).2 (by decide) (by decide) (by decide) (by decide)

/-- C2 counterexample: the claim counts four no-document interface values,
but the list the source tests against at line 145 has five elements. -/
theorem C2_counterexample_five_values : ¬ no_document_interfaces.length = 4 := by decide

/-- C2 (amended): there are exactly five no-document interface values, and
for each of them the urlpath in the redirect query string is exactly the
interface value itself, with no repository or file segment appended. -/
theorem C2_no_document_urlpath (x : JupyterMCXBlock)
    (h : x.urlbasepath ∈ no_document_interfaces) :
    no_document_interfaces.length = 5 ∧
    (next_query_params x).lookup "urlpath" = some x.urlbasepath := by
  refine ⟨rfl, ?_⟩
  rw [next_query_params_eq]
  unfold redirect_urlpath
  rw [if_pos h]
  simp [List.lookup]

/-- C2 witness: instantiation at the terminal interface. -/
theorem C2_no_document_urlpath_witness :
    no_document_interfaces.length = 5 ∧
    (next_query_params { urlbasepath := "terminals/1" }).lookup "urlpath" =
      some "terminals/1" :=
  C2_no_document_urlpath { urlbasepath := "terminals/1" } (by decide)

/-- C5: for every interface value outside the no-document set, the urlpath
in the redirect query string is the interface, the basename of the
configured git repository URL and the configured file path joined by
slashes. -/
theorem C5_document_urlpath (x : JupyterMCXBlock)
    (h : x.urlbasepath ∉ no_document_interfaces) :
    (next_query_params x).lookup "urlpath" =
      some (x.urlbasepath ++ "/" ++ osPathBasename x.nb_git_repo ++ "/" ++ x.nb_git_file) := by
  rw [next_query_params_eq]
  unfold redirect_urlpath
  rw [if_neg h]
  simp [List.lookup]

/-- C5 witness: instantiation at the default configuration, whose
JupyterLab interface is outside the no-document set. -/
theorem C5_document_urlpath_witness :
    (next_query_params {}).lookup "urlpath" =
      some ("lab/tree" ++ "/" ++
        osPathBasename "https://github.com/calculquebec/jupytermc-xblock.git" ++ "/" ++
        "static/notebooks/hello.ipynb") :=
  C5_document_urlpath {} (by decide)

/-- C9: the values list of the urlbasepath field declares seven option
entries, but the token sequence is not a syntactically valid Python list
display: the separating commas are missing between the fourth through
seventh entries. -/
theorem C9_options_list_malformed :
    urlbasepath_values_tokens.countP isEntry = 7 ∧
    wellFormedTokens urlbasepath_values_tokens = false := by decide

/-- C10: prefixed_custom_parameters binds `next` to the composed git-pull
URL, overwriting any author-supplied value, and leaves the lookup of every
other key of the base-class custom-parameters map unchanged. -/
theorem C10_custom_parameters_frame (x : JupyterMCXBlock) :
    (prefixed_custom_parameters x).lookup "next" = some (next_url x) ∧
    ∀ k, k ≠ "next" →
      (prefixed_custom_parameters x).lookup k = x.base_custom_parameters.lookup k :=
  ⟨lookup_setKey_self _ _ _, fun k hk => lookup_setKey_other _ _ _ k hk⟩

/-- A configuration whose author supplied both a `next` and another custom
parameter. -/
def xAuthorNext : JupyterMCXBlock :=
  { base_custom_parameters := [("next", "author-next"), ("other", "v")] }

/-- C10 witness: with an author-supplied `next` parameter present, `next`
is overwritten and the other key is preserved. -/
theorem C10_custom_parameters_frame_witness :
    (prefixed_custom_parameters xAuthorNext).lookup "next" = some (next_url xAuthorNext) ∧
    (prefixed_custom_parameters xAuthorNext).lookup "other" =
      xAuthorNext.base_custom_parameters.lookup "other" :=
  ⟨(C10_custom_parameters_frame xAuthorNext).1,
   (C10_custom_parameters_frame xAuthorNext).2 "other" (by decide)⟩

/-- Real-user data of a successfully authenticated launch, for the
concrete handler scenarios. -/
def rudOk : RealUserData := { user_username := some "alice", user_language := none }

/-- A parameter processor whose call raises. -/
def raisingProcessor : ParamProcessor :=
  { lti_xblock_default_params := [], call := Except.error "ValueError" }

/-- A launch context with successful identity extraction and one raising
parameter processor. -/
def envRaising : LaunchEnv :=
  { real_user_data := Except.ok rudOk, parameter_processors := [raisingProcessor] }

/-- C1: with a raising parameter processor the handler does not log the
exception and continue to a 200 launch form.  The except branch references
the undefined name `log` (the module defines `logger`), so evaluating it
raises NameError, which escapes the handler. -/
theorem C1_raising_processor_uncaught :
    lti_launch_handler {} envRaising = HandlerOutcome.uncaught "NameError" := rfl

/-- C3 counterexample: a launch whose identity extraction succeeds but in
which one parameter processor raises produces no response at all, refuting
the otherwise-HTTP-200 half of the claim as stated. -/
theorem C3_counterexample_processor_raise :
    envRaising.real_user_data = Except.ok rudOk ∧
    ∀ r, lti_launch_handler {} envRaising ≠ HandlerOutcome.response r := by
  refine ⟨rfl, ?_⟩
  intro r h
  have he : lti_launch_handler {} envRaising = HandlerOutcome.uncaught "NameError" := rfl
  rw [he] at h
  exact HandlerOutcome.noConfusion h

/-- C3 (amended): if identity extraction raises the declared LTI error
kind, the handler responds with HTTP 400 and the error message appears in
the rendered body; otherwise, provided no registered parameter processor
raises, the handler responds with HTTP 200 and the serialized launch
parameters appear in the rendered body. -/
theorem C3_status_dichotomy (x : JupyterMCXBlock) (env : LaunchEnv) :
    (∀ msg, env.real_user_data = Except.error msg →
      ∃ r, lti_launch_handler x env = HandlerOutcome.response r ∧
        r.status = 400 ∧ ContainsSubstring r.body msg) ∧
    (∀ rud, env.real_user_data = Except.ok rud →
      (∀ p ∈ env.parameter_processors, ∃ v, p.call = Except.ok v) →
      ∃ ps, lti_launch_handler x env =
          HandlerOutcome.response
            { body := render_lti_launch ps, status := 200, content_type := "text/html" } ∧
        ContainsSubstring (render_lti_launch ps) (serialize_params ps)) := by
  constructor
  · intro msg hmsg
    refine ⟨{ body := render_lti_launch_error msg, status := 400, content_type := "text/html" },
      ?_, rfl, "<html><body>", "</body></html>", rfl⟩
    simp only [lti_launch_handler, hmsg]
  · intro rud hok hcall
    obtain ⟨st2, hst2⟩ :=
      runProcessors_ok (initial_consumer_state x env rud) env.parameter_processors hcall
    refine ⟨env.generate_launch_request st2 env.resource_link_id, ?_,
      "<html><form>", "</form></html>", rfl⟩
    simp only [lti_launch_handler, hok, hst2]

/-- A launch context whose identity extraction raises. -/
def envIdentityError : LaunchEnv :=
  { real_user_data := Except.error "Unauthorized launch" }

/-- A launch context with successful identity extraction and no parameter
processors. -/
def envClean : LaunchEnv := { real_user_data := Except.ok rudOk }

/-- C3 witness: the 400 branch at a concrete failing extraction and the
200 branch at a concrete clean launch. -/
theorem C3_status_dichotomy_witness :
    (∃ r, lti_launch_handler {} envIdentityError = HandlerOutcome.response r ∧
      r.status = 400 ∧ ContainsSubstring r.body "Unauthorized launch") ∧
    (∃ ps, lti_launch_handler {} envClean =
        HandlerOutcome.response
          { body := render_lti_launch ps, status := 200, content_type := "text/html" } ∧
      ContainsSubstring (render_lti_launch ps) (serialize_params ps)) := by
  constructor
  · exact (C3_status_dichotomy {} envIdentityError).1 "Unauthorized launch" rfl
  · exact (C3_status_dichotomy {} envClean).2 rudOk rfl
      (fun p hp => absurd hp (List.not_mem_nil p))

/-- The character data of the composed next URL: base path, fixed git-pull
segment, question mark, encoded query string. -/
theorem next_url_data (x : JupyterMCXBlock) :
    (next_url x).data =
      (hub_url_base_path x).data ++ "/hub/user-redirect/git-pull".data ++
        '?' :: (urlencode (next_query_params x)).data := by
  unfold next_url
  rw [String.data_append, String.data_append]
  rw [show ("/hub/user-redirect/git-pull?" : String).data =
      "/hub/user-redirect/git-pull".data ++ ['?'] from rfl]
  simp [List.append_assoc]

/-- No character of the base path or of the fixed git-pull segment is a
question mark. -/
theorem no_query_mark_in_path_part (x : JupyterMCXBlock) :
    ∀ ch ∈ (hub_url_base_path x).data ++ "/hub/user-redirect/git-pull".data,
      (decide (ch ≠ '?')) = true := by
  intro ch hch
  have hseg : ('?' : Char) ∉ "/hub/user-redirect/git-pull".data := by decide
  rcases List.mem_append.mp hch with h | h
  · simp only [decide_eq_true_eq]
    exact fun e => not_mem_hub_url_base_path x (e ▸ h)
  · simp only [decide_eq_true_eq]
    exact fun e => hseg (e ▸ h)

/-- C6: for every configuration, the `next` custom LTI parameter splits at
its first question mark into a path ending in the fixed segment
`/hub/user-redirect/git-pull` and a URL-encoded query string binding
exactly the keys `repo`, `branch` and `urlpath` to the configured
repository URL, the configured branch and the derived redirect path. -/
theorem C6_next_parameter_format (x : JupyterMCXBlock) :
    ∃ n, (prefixed_custom_parameters x).lookup "next" = some n ∧
      (∃ base, beforeFirst '?' n = base ++ "/hub/user-redirect/git-pull") ∧
      afterFirst '?' n =
        urlencode [("repo", x.nb_git_repo), ("branch", x.nb_git_branch),
          ("urlpath", redirect_urlpath x)] := by
  have hq := no_query_mark_in_path_part x
  refine ⟨next_url x, lookup_setKey_self _ _ _, ⟨hub_url_base_path x, ?_⟩, ?_⟩
  · unfold beforeFirst
    rw [next_url_data]
    rw [takeWhile_append_stop _ '?' _ hq (by decide)]
    exact String.ext (String.data_append _ _).symm
  · unfold afterFirst
    rw [next_url_data]
    rw [dropWhile_append_stop _ '?' _ hq (by decide)]
    rw [next_query_params_eq]
    rfl

end JupyterMC
